import Mathlib

/-!
Shallow embedding of `lgbm_feature_extractor.py` (class `LGBMFeatureExtractor`):
the versioned-object diff and geometric feature engine.  Python floats are
modelled as real numbers, Python `None` as `Option.none`, JSON dictionaries as
Lean structures with `Option` fields, and the in-memory caches (`prev_cache`,
`coords_curr`, `coords_prev`, `coords_prev_fallback`, changeset/user counters)
as functions with explicit default values.
-/

namespace OSM

/-- A JSON scalar used as an object id or a node reference: either an integer
or a string (e.g. `node_refs: ["10", "11"]`). -/
inductive RefVal where
  | rint (n : ℤ)
  | rstr (s : String)
deriving DecidableEq, Repr

/-- Python `str()` applied to a reference value (used by the closed-way test
`str(refs[0]) == str(refs[-1])`). -/
def RefVal.strOf : RefVal → String
  | .rint n => toString n
  | .rstr s => s

/-- Decimal-digit test. -/
def isDig (c : Char) : Bool := c.isDigit

/-- Value of a nonempty digit list, most significant first. -/
def digitsVal (l : List Char) : ℕ :=
  l.foldl (fun a c => a * 10 + (c.toNat - 48)) 0

/-- Model of Python `int(s)` on a plain decimal string: optional sign followed
by at least one digit.  Returns `none` when the conversion would raise
`ValueError` (the caller's `except: pass` then keeps the original value). -/
def pyIntOfString (s : String) : Option ℤ :=
  let cs := s.data
  match cs with
  | '-' :: rest =>
      if rest ≠ [] ∧ rest.all isDig then some (-(digitsVal rest : ℤ)) else none
  | '+' :: rest =>
      if rest ≠ [] ∧ rest.all isDig then some ((digitsVal rest : ℤ)) else none
  | _ =>
      if cs ≠ [] ∧ cs.all isDig then some ((digitsVal cs : ℤ)) else none

/-- `int(nid)` coercion applied to each node reference in
`_calculate_way_metrics`: an integer stays itself, a string that parses as an
integer becomes that integer, anything else is left as-is. -/
def intCoerce : RefVal → RefVal
  | .rint n => .rint n
  | .rstr s =>
      match pyIntOfString s with
      | some n => .rint n
      | none => .rstr s

/-- Model of a numeric-string parse as performed by `pd.to_numeric` on a plain
decimal literal: optional sign, digits, optional fractional part (at least one
digit overall).  Returns `none` for a non-numeric string, which `to_numeric`
turns into a missing marker. -/
def parseNumQ (s : String) : Option ℚ :=
  let cs := s.data
  let core : List Char → Option ℚ := fun l =>
    match l.splitOn '.' with
    | [a] => if a ≠ [] ∧ a.all isDig then some ((digitsVal a : ℚ)) else none
    | [a, b] =>
        if (a ++ b) ≠ [] ∧ a.all isDig ∧ b.all isDig then
          some ((digitsVal a : ℚ) + (digitsVal b : ℚ) / (10 : ℚ) ^ b.length)
        else none
    | _ => none
  match cs with
  | '-' :: rest => (core rest).map (fun q => -q)
  | '+' :: rest => core rest
  | _ => core cs

/-- Leap-year test of the proleptic Gregorian calendar (as used by
`datetime`). -/
def isLeap (y : ℤ) : Bool := (y % 4 == 0 && y % 100 != 0) || (y % 400 == 0)

/-- Number of days in a month. -/
def monthLen (y : ℤ) (m : ℕ) : ℕ :=
  if m = 2 then (if isLeap y then 29 else 28)
  else if m = 4 ∨ m = 6 ∨ m = 9 ∨ m = 11 then 30
  else 31

/-- Days from the civil epoch 1970-01-01 to year/month/day (standard
days-from-civil computation; all intermediate quantities are nonnegative for
the years ≥ 1 accepted by `datetime`). -/
def daysFromCivil (y0 : ℤ) (m d : ℤ) : ℤ :=
  let y := if m ≤ 2 then y0 - 1 else y0
  let era := (if 0 ≤ y then y else y - 399) / 400
  let yoe := y - era * 400
  let mp := if 2 < m then m - 3 else m + 9
  let doy := (153 * mp + 2) / 5 + d - 1
  let doe := yoe * 365 + yoe / 4 - yoe / 100 + doy
  era * 146097 + doe - 719468

/-- Model of `_parse_ts`: an OSM timestamp string in the exact format
`%Y-%m-%dT%H:%M:%SZ` is converted to Unix seconds (conversion modelled in
UTC); an absent, empty, or unparsable string yields 0. -/
def parseTs (o : Option String) : ℤ :=
  match o with
  | none => 0
  | some s =>
      let cs := s.data
      match cs with
      | [y1, y2, y3, y4, '-', m1, m2, '-', d1, d2, 'T',
         h1, h2, ':', i1, i2, ':', s1, s2, 'Z'] =>
          if [y1, y2, y3, y4, m1, m2, d1, d2, h1, h2, i1, i2, s1, s2].all isDig then
            let y : ℤ := digitsVal [y1, y2, y3, y4]
            let mo : ℕ := digitsVal [m1, m2]
            let da : ℕ := digitsVal [d1, d2]
            let h : ℕ := digitsVal [h1, h2]
            let mi : ℕ := digitsVal [i1, i2]
            let se : ℕ := digitsVal [s1, s2]
            if 1 ≤ y ∧ 1 ≤ mo ∧ mo ≤ 12 ∧ 1 ≤ da ∧ da ≤ monthLen y mo ∧
               h ≤ 23 ∧ mi ≤ 59 ∧ se ≤ 59 then
              daysFromCivil y mo da * 86400 + h * 3600 + mi * 60 + se
            else 0
          else 0
      | _ => 0

/-- Geometry of a node record: the `geom` JSON object, restricted to its
`lat`/`lon` keys, each independently absent or a number. -/
structure Geom where
  lat : Option ℝ
  lon : Option ℝ

/-- Python truthiness of the `geom` dict (`d["geom"]` in a boolean context):
nonempty, i.e. at least one of its keys is present. -/
def geomTruthy (g : Geom) : Bool := g.lat.isSome || g.lon.isSome

/-- The `refs` JSON object of a record: `node_refs` (way) and/or `members`
(relation).  Member entries are modelled by their scalar ids; only the length
of the member list is consumed by the extractor. -/
structure Refs where
  node_refs : Option (List RefVal)
  members : Option (List RefVal)

/-- One parsed JSONL record (a `VersionedObjectRecord`): every field may be
absent, exactly as `d.get(...)` treats the underlying dict. -/
structure Rec where
  obj_type : Option String
  obj_id : Option RefVal
  version : Option ℤ
  action : Option String
  timestamp : Option String
  geom : Option Geom
  tags : Option (List (String × String))
  refs : Option Refs
  changeset_id : Option ℤ
  uid : Option ℤ

/-- The empty record (all fields absent), a convenient base for literals. -/
def Rec.empty : Rec :=
  ⟨none, none, none, none, none, none, none, none, none, none⟩

/-- `math.radians`: degrees to radians, `x * pi / 180`. -/
noncomputable def radians (x : ℝ) : ℝ := x * Real.pi / 180

/-- `math.atan2 y x`, modelled by the standard piecewise definition in terms
of `arctan` (the float distinction between `+0.0` and `-0.0` is not
modelled). -/
noncomputable def atan2 (y x : ℝ) : ℝ :=
  if 0 < x then Real.arctan (y / x)
  else if x < 0 ∧ 0 ≤ y then Real.arctan (y / x) + Real.pi
  else if x < 0 then Real.arctan (y / x) - Real.pi
  else if 0 < y then Real.pi / 2
  else if y < 0 then -(Real.pi / 2)
  else 0

/-- The arithmetic core of `_haversine` on four present coordinates
(great-circle distance in metres on a sphere of radius 6,371,000 m). -/
noncomputable def havCore (lat1 lon1 lat2 lon2 : ℝ) : ℝ :=
  let R : ℝ := 6371000
  let phi1 := radians lat1
  let phi2 := radians lat2
  let dphi := radians (lat2 - lat1)
  let dlambda := radians (lon2 - lon1)
  let a := Real.sin (dphi / 2) ^ 2 +
    Real.cos phi1 * Real.cos phi2 * Real.sin (dlambda / 2) ^ 2
  let c := 2 * atan2 (Real.sqrt a) (Real.sqrt (1 - a))
  R * c

/-- `_haversine`: returns 0.0 when any of the four components is `None`;
otherwise the haversine distance.  The Python `try/except` around the
arithmetic is modelled by the totality of the real-valued core (Mathlib's
`Real.sqrt` of a negative number is 0, and `atan2` is total), so the function
never fails for any input. -/
noncomputable def haversine (lat1 lon1 lat2 lon2 : Option ℝ) : ℝ :=
  match lat1, lon1, lat2, lon2 with
  | some a1, some o1, some a2, some o2 => havCore a1 o1 a2 o2
  | _, _, _, _ => 0

/-- A coordinate cache (`coords_curr`, `coords_prev`, or
`coords_prev_fallback`): node id (the raw `obj_id` value, possibly `None`) to
the stored `(lat, lon)` pair, each component possibly `None`. -/
def CoordCache : Type := Option RefVal → Option (Option ℝ × Option ℝ)

/-- The coordinate-resolution loop of `_calculate_way_metrics`: coerce each
reference with `int(...)`, look it up in the cache, and keep the pair only
when both components are present. -/
def resolveCoords (refs : List RefVal) (cache : CoordCache) : List (ℝ × ℝ) :=
  refs.filterMap (fun nid0 =>
    let nid := intCoerce nid0
    match cache (some nid) with
    | some (some lat, some lon) => some (lat, lon)
    | _ => none)

/-- Polyline length: sum of consecutive-pair haversine distances. -/
noncomputable def polyLength : List (ℝ × ℝ) → ℝ
  | (a, b) :: (c, d) :: rest => havCore a b c d + polyLength ((c, d) :: rest)
  | _ => 0

/-- Equirectangular projection of one resolved coordinate:
`y = lat * 111320`, `x = lon * (40075000 * cos(radians lat) / 360)`. -/
noncomputable def projectXY (p : ℝ × ℝ) : ℝ × ℝ :=
  (p.2 * (40075000 * Real.cos (radians p.1) / 360), p.1 * 111320)

/-- Shoelace sum over the projected ring: half the absolute difference of the
two cyclic cross-sums. -/
noncomputable def shoelace (coords : List (ℝ × ℝ)) : ℝ :=
  let xy := coords.map projectXY
  let n := xy.length
  let sum1 := ((List.range n).map
    (fun i => (xy.getD i (0, 0)).1 * (xy.getD ((i + 1) % n) (0, 0)).2)).sum
  let sum2 := ((List.range n).map
    (fun i => (xy.getD i (0, 0)).2 * (xy.getD ((i + 1) % n) (0, 0)).1)).sum
  0.5 * |sum1 - sum2|

/-- The closed-way test of `_calculate_way_metrics`:
`len(refs) >= 3 and str(refs[0]) == str(refs[-1])`. -/
def isClosed (refs : List RefVal) : Bool :=
  match refs.head?, refs.getLast? with
  | some a, some b => decide (3 ≤ refs.length) && decide (a.strOf = b.strOf)
  | _, _ => false

/-- `_calculate_way_metrics`: returns `(length_m, area_m2, centroid)`.  If
fewer than 2 coordinates resolve the result is `(0, 0, (0, 0))`; area is
computed only for a closed reference list with at least 3 resolved
coordinates. -/
noncomputable def wayMetrics (refs : List RefVal) (cache : CoordCache) :
    ℝ × ℝ × (ℝ × ℝ) :=
  let coords := resolveCoords refs cache
  if coords.length < 2 then (0, 0, (0, 0))
  else
    let length_m := polyLength coords
    let centroid : ℝ × ℝ :=
      ((coords.map Prod.fst).sum / coords.length,
       (coords.map Prod.snd).sum / coords.length)
    let area_m2 : ℝ :=
      if isClosed refs ∧ 3 ≤ coords.length then shoelace coords else 0
    (length_m, area_m2, centroid)

/-- The extractor's cached state after `preprocess`: `prev_cache`,
`coords_curr`, `coords_prev`, `coords_prev_fallback`, and the
changeset / user statistics. -/
structure XState where
  prevCache : Option String × Option RefVal × Option ℤ → Option Rec
  coordsCurr : CoordCache
  coordsPrev : CoordCache
  coordsPrevFallback : CoordCache
  statsCsSize : Option ℤ → ℕ
  statsUserEdit : ℤ → ℕ
  statsUserDiv : ℤ → Finset (Option String)

/-- Pointwise dictionary insertion (Python `d[k] = v`, last write wins). -/
def dictInsert {K V : Type} [DecidableEq K] (f : K → Option V) (k : K) (v : V) :
    K → Option V :=
  fun k' => if k' = k then some v else f k'

/-- The empty state: all caches empty, all counters zero. -/
def XState.empty : XState :=
  ⟨fun _ => none, fun _ => none, fun _ => none, fun _ => none,
   fun _ => 0, fun _ => 0, fun _ => ∅⟩

/-- One step of the prev-stream scan of `preprocess`: insert into
`prev_cache` keyed by `(obj_type, obj_id, version)`; when the record is a node
with a present, nonempty `geom`, insert `(geom.get("lat"), geom.get("lon"))`
into `coords_prev` keyed by `obj_id`. -/
def prevStep (st : XState) (d : Rec) : XState :=
  let st1 := { st with
    prevCache := dictInsert st.prevCache (d.obj_type, d.obj_id, d.version) d }
  match d.geom with
  | some g =>
      if d.obj_type = some "node" ∧ geomTruthy g then
        { st1 with coordsPrev := dictInsert st1.coordsPrev d.obj_id (g.lat, g.lon) }
      else st1
  | none => st1

/-- One step of the curr-stream scan of `preprocess`: node coordinates into
`coords_curr`, plus the changeset-size, user-edit and user-diversity
statistics. -/
def currStep (st : XState) (d : Rec) : XState :=
  let st1 :=
    match d.geom with
    | some g =>
        if d.obj_type = some "node" ∧ geomTruthy g then
          { st with coordsCurr := dictInsert st.coordsCurr d.obj_id (g.lat, g.lon) }
        else st
    | none => st
  let uid := d.uid.getD 0
  { st1 with
    statsCsSize := fun k =>
      if k = d.changeset_id then st1.statsCsSize k + 1 else st1.statsCsSize k
    statsUserEdit := fun u =>
      if u = uid then st1.statsUserEdit u + 1 else st1.statsUserEdit u
    statsUserDiv := fun u =>
      if u = uid then insert d.obj_type (st1.statsUserDiv u) else st1.statsUserDiv u }

/-- `preprocess`: scan the prev stream, then the curr stream, then derive
`coords_prev_fallback` as the current map overwritten by the prior map (prior
wins on key collision).  Lines that fail JSON parsing are skipped by the
source before reaching these steps, so the input is modelled as the list of
successfully parsed records. -/
def preprocess (prevs currs : List Rec) : XState :=
  let st1 := prevs.foldl prevStep XState.empty
  let st2 := currs.foldl currStep st1
  { st2 with
    coordsPrevFallback := fun k =>
      match st2.coordsPrev k with
      | some v => some v
      | none => st2.coordsCurr k }

/-- `str.lower` on one character, modelled on the ASCII range. -/
def charLower (c : Char) : Char :=
  if 'A' ≤ c ∧ c ≤ 'Z' then Char.ofNat (c.toNat + 32) else c

/-- Python `str.lower()`, modelled on the ASCII range. -/
def strLower (s : String) : String := ⟨s.data.map charLower⟩

/-- `(curr.get("action") or "").lower()`. -/
def actionOf (r : Rec) : String := strLower (r.action.getD "")

/-- `curr.get("version", 1)`. -/
def versionOf (r : Rec) : ℤ := r.version.getD 1

/-- Predecessor lookup of `extract_row`: only when the action is not
`create` and the version exceeds 1, look up `(obj_type, obj_id, version-1)`
in `prev_cache`. -/
def prevLookup (st : XState) (r : Rec) : Option Rec :=
  if actionOf r ≠ "create" ∧ 1 < versionOf r then
    st.prevCache (r.obj_type, r.obj_id, some (versionOf r - 1))
  else none

/-- `(r.get("refs", {}) or {}).get("node_refs", [])`, falling back to
`members` when the node-reference list is empty or absent. -/
def refsListOf (r : Rec) : List RefVal :=
  match r.refs with
  | some rr =>
      let nr := rr.node_refs.getD []
      if nr = [] then rr.members.getD [] else nr
  | none => []

/-- `tags or {}`: the tag dict of a record, empty when absent. -/
def tagsOf (r : Rec) : List (String × String) := r.tags.getD []

/-- Python `dict.get(k)` on the tag dict (last binding wins, as for a dict
built by repeated assignment). -/
def dget (l : List (String × String)) (k : String) : Option String :=
  l.foldl (fun acc p => if p.1 = k then some p.2 else acc) none

/-- Key set of a tag dict. -/
def keySet (l : List (String × String)) : Finset String :=
  (l.map Prod.fst).toFinset

/-- The feature dict built by `extract_row`, with one typed field per key.
Integer-valued Python features are `ℤ`, float-valued ones are `ℝ`; the two
identifier fields keep their raw (possibly absent, possibly string) values. -/
structure Feat where
  changeset_id : Option ℤ
  obj_id : Option RefVal
  object_type : ℤ
  version_count : ℤ
  is_delete : ℤ
  is_create : ℤ
  is_modify : ℤ
  last_modified_time : ℤ
  created_time : ℤ
  tag_count : ℤ
  tag_add_count : ℤ
  tag_remove_count : ℤ
  tag_modify_count : ℤ
  name_changed : ℤ
  length_change_ratio : ℝ
  area_change_ratio : ℝ
  node_count_change : ℤ
  centroid_shift : ℝ
  changeset_size : ℤ
  user_edit_count : ℤ
  user_object_diversity : ℤ
  time_gap_prev : ℤ

/-- `extract_row`: the full per-record feature computation, reading the
preprocessed state.  Every state access in the source is a non-mutating
`.get` (including `stats_user_div.get(uid, set())`, which does not trigger
the defaultdict insertion), so the embedding is a pure reader. -/
noncomputable def extractRow (st : XState) (curr : Rec) : Feat :=
  let action := actionOf curr
  let version := versionOf curr
  let prev := prevLookup st curr
  -- 1) basic meta
  let object_type : ℤ :=
    match curr.obj_type with
    | some "node" => 0
    | some "way" => 1
    | some "relation" => 2
    | _ => -1
  let curr_ts := parseTs curr.timestamp
  -- 2) tag diff
  let c_tags := tagsOf curr
  let p_tags := match prev with | some p => tagsOf p | none => []
  let c_keys := keySet c_tags
  let p_keys := keySet p_tags
  -- 3) geometry diff
  let c_refs := refsListOf curr
  let p_refs := match prev with | some p => refsListOf p | none => []
  let geo : ℝ × ℝ × ℝ :=  -- (length_change_ratio, area_change_ratio, centroid_shift)
    if curr.obj_type = some "node" then
      match prev, curr.geom with
      | some p, some cg =>
          match p.geom with
          | some pg =>
              if geomTruthy cg ∧ geomTruthy pg then
                (0, 0, haversine cg.lat cg.lon pg.lat pg.lon)
              else (0, 0, 0)
          | none => (0, 0, 0)
      | _, _ => (0, 0, 0)
    else if curr.obj_type = some "way" then
      let cm := wayMetrics c_refs st.coordsCurr
      match prev with
      | some p =>
          let pm := wayMetrics (refsListOf p) st.coordsPrevFallback
          let eps : ℝ := 1 / 1000000
          let lr := (cm.1 - pm.1) / max pm.1 eps
          let ar := (cm.2.1 - pm.2.1) / max pm.2.1 eps
          let cs :=
            if 0 < pm.1 then
              haversine (some cm.2.2.1) (some cm.2.2.2)
                (some pm.2.2.1) (some pm.2.2.2)
            else 0
          (lr, ar, cs)
      | none => (0, 0, 0)
    else (0, 0, 0)
  -- 4) context
  let uid := curr.uid.getD 0
  let prev_ts := match prev with | some p => parseTs p.timestamp | none => 0
  { changeset_id := curr.changeset_id
    obj_id := curr.obj_id
    object_type := object_type
    version_count := version
    is_delete := if action = "delete" then 1 else 0
    is_create := if action = "create" then 1 else 0
    is_modify := if action = "modify" then 1 else 0
    last_modified_time := curr_ts
    created_time := if version = 1 then curr_ts else 0
    tag_count := c_keys.card
    tag_add_count := (c_keys \ p_keys).card
    tag_remove_count := (p_keys \ c_keys).card
    tag_modify_count :=
      ((c_keys ∩ p_keys).filter (fun k => dget c_tags k ≠ dget p_tags k)).card
    name_changed := if dget c_tags "name" ≠ dget p_tags "name" then 1 else 0
    length_change_ratio := geo.1
    area_change_ratio := geo.2.1
    node_count_change := (c_refs.length : ℤ) - (p_refs.length : ℤ)
    centroid_shift := geo.2.2
    changeset_size := st.statsCsSize curr.changeset_id
    user_edit_count := st.statsUserEdit uid
    user_object_diversity := (st.statsUserDiv uid).card
    time_gap_prev := if 0 < prev_ts then curr_ts - prev_ts else 0 }

/-- `extract_row` with the state threaded explicitly: the source performs no
mutating access during extraction, so the outgoing state is the incoming
one. -/
noncomputable def extractRowS (st : XState) (curr : Rec) : Feat × XState :=
  (extractRow st curr, st)

/-- A Python cell value as seen by the sanitization pass: an integer, a
float, a string, `None`, `NaN`, or a signed infinity. -/
inductive Value where
  | vint (n : ℤ)
  | vfloat (x : ℝ)
  | vstr (s : String)
  | vnone
  | vnan
  | vinf
  | vneginf

/-- Whether a sanitized cell is an actual (finite) number. -/
def Value.isNum : Value → Bool
  | .vint _ => true
  | .vfloat _ => true
  | _ => false

/-- A feature row as a dict from column name to cell value. -/
abbrev Row : Type := List (String × Value)

/-- Raw-value conversion for the identifier fields. -/
def refValToValue : Option RefVal → Value
  | some (.rint n) => .vint n
  | some (.rstr s) => .vstr s
  | none => .vnone

/-- `Option ℤ` to cell value (`None` stays `None`). -/
def optIntToValue : Option ℤ → Value
  | some n => .vint n
  | none => .vnone

/-- The feature dict in its Python insertion order. -/
noncomputable def toRow (f : Feat) : Row :=
  [("changeset_id", optIntToValue f.changeset_id),
   ("obj_id", refValToValue f.obj_id),
   ("object_type", .vint f.object_type),
   ("version_count", .vint f.version_count),
   ("is_delete", .vint f.is_delete),
   ("is_create", .vint f.is_create),
   ("is_modify", .vint f.is_modify),
   ("last_modified_time", .vint f.last_modified_time),
   ("created_time", .vint f.created_time),
   ("tag_count", .vint f.tag_count),
   ("tag_add_count", .vint f.tag_add_count),
   ("tag_remove_count", .vint f.tag_remove_count),
   ("tag_modify_count", .vint f.tag_modify_count),
   ("name_changed", .vint f.name_changed),
   ("length_change_ratio", .vfloat f.length_change_ratio),
   ("area_change_ratio", .vfloat f.area_change_ratio),
   ("node_count_change", .vint f.node_count_change),
   ("centroid_shift", .vfloat f.centroid_shift),
   ("changeset_size", .vint f.changeset_size),
   ("user_edit_count", .vint f.user_edit_count),
   ("user_object_diversity", .vint f.user_object_diversity),
   ("time_gap_prev", .vint f.time_gap_prev)]

/-- Dict lookup on a row. -/
def rowLookup : Row → String → Option Value
  | [], _ => none
  | (k, v) :: rest, c => if k = c then some v else rowLookup rest c

/-- The fixed, ordered column set of `run`. -/
def cols : List String :=
  ["changeset_id", "obj_id",
   "object_type", "version_count",
   "is_delete", "is_create", "is_modify",
   "last_modified_time", "created_time",
   "tag_count", "tag_add_count", "tag_remove_count", "tag_modify_count",
   "name_changed",
   "length_change_ratio", "area_change_ratio", "node_count_change",
   "centroid_shift",
   "changeset_size", "user_edit_count", "user_object_diversity",
   "time_gap_prev"]

/-- `pd.to_numeric(..., errors="coerce")` on one cell: numbers pass through,
a numeric string parses, everything else becomes the missing marker `NaN`. -/
noncomputable def toNumeric : Value → Value
  | .vint n => .vint n
  | .vfloat x => .vfloat x
  | .vstr s =>
      match parseNumQ s with
      | some q => .vfloat (q : ℝ)
      | none => .vnan
  | .vnone => .vnan
  | .vnan => .vnan
  | .vinf => .vinf
  | .vneginf => .vneginf

/-- `fillna(0)` on one cell. -/
def fillna0 : Value → Value
  | .vnan => .vint 0
  | v => v

/-- `replace([inf, -inf], 0)` on one cell. -/
def replaceInf0 : Value → Value
  | .vinf => .vint 0
  | .vneginf => .vint 0
  | v => v

/-- Sanitization of one cell, given its (possibly absent) raw value: a column
absent from the row is synthesized with 0 (either by `df[c] = 0` when no row
has the column, or as a `NaN` cell filled by `fillna(0)` — both end at 0);
otherwise the coerce / fillna / replace chain is applied. -/
noncomputable def sanitizeValue : Option Value → Value
  | none => .vint 0
  | some v => replaceInf0 (fillna0 (toNumeric v))

/-- The sanitizer on one accumulated row: the fixed column set in its fixed
order (`df[cols]` keeps exactly these columns), each cell sanitized. -/
noncomputable def sanitizeRow (r : Row) : Row :=
  cols.map (fun c => (c, sanitizeValue (rowLookup r c)))

/-- The emitted table: one sanitized row per accumulated feature row. -/
noncomputable def sanitizeTable (rows : List Row) : List Row :=
  rows.map sanitizeRow

/-! ## Helper lemmas -/

lemma havCore_self (lat lon : ℝ) : havCore lat lon lat lon = 0 := by
  simp [havCore, radians, atan2, Real.arctan_zero]

lemma havCore_comm (lat1 lon1 lat2 lon2 : ℝ) :
    havCore lat1 lon1 lat2 lon2 = havCore lat2 lon2 lat1 lon1 := by
  have key : ∀ x y : ℝ,
      Real.sin ((x - y) * Real.pi / 180 / 2) ^ 2 =
      Real.sin ((y - x) * Real.pi / 180 / 2) ^ 2 := by
    intro x y
    have hx : (x - y) * Real.pi / 180 / 2 = -((y - x) * Real.pi / 180 / 2) := by
      ring
    rw [hx, Real.sin_neg, neg_sq]
  simp only [havCore, radians]
  rw [key lat2 lat1, key lon2 lon1,
    mul_comm (Real.cos (lat1 * Real.pi / 180)) (Real.cos (lat2 * Real.pi / 180))]

lemma havCore001_pos : 0 < havCore 0 0 0 (1 / 1000) := by
  have hθ0 : (0 : ℝ) < Real.pi / 360000 := by positivity
  have hθ1 : Real.pi / 360000 < 1 := by
    have := Real.pi_lt_d2
    linarith
  have hθπ : Real.pi / 360000 < Real.pi := by
    have := Real.pi_pos
    linarith
  have hs0 : 0 < Real.sin (Real.pi / 360000) :=
    Real.sin_pos_of_pos_of_lt_pi hθ0 hθπ
  have hs1 : Real.sin (Real.pi / 360000) < 1 :=
    lt_trans (Real.sin_lt hθ0) hθ1
  have harg : (1 : ℝ) / 1000 * Real.pi / 180 / 2 = Real.pi / 360000 := by ring
  have ha0 : 0 < Real.sin (Real.pi / 360000) ^ 2 := by positivity
  have ha1 : Real.sin (Real.pi / 360000) ^ 2 < 1 := by nlinarith
  simp only [havCore, radians, sub_self, sub_zero, zero_mul, zero_div,
    Real.sin_zero, Real.cos_zero, one_mul, zero_pow, zero_add, ne_eq,
    OfNat.ofNat_ne_zero, not_false_iff, harg]
  have hx : 0 < Real.sqrt (1 - Real.sin (Real.pi / 360000) ^ 2) :=
    Real.sqrt_pos.mpr (by linarith)
  have hy : 0 < Real.sqrt (Real.sin (Real.pi / 360000) ^ 2) :=
    Real.sqrt_pos.mpr ha0
  have hat : 0 < atan2 (Real.sqrt (Real.sin (Real.pi / 360000) ^ 2))
      (Real.sqrt (1 - Real.sin (Real.pi / 360000) ^ 2)) := by
    rw [atan2, if_pos hx]
    have := Real.arctan_strictMono (div_pos hy hx)
    rwa [Real.arctan_zero] at this
  nlinarith [hat]

/-! ## The claims -/

/-- C6: for every input to the distance function, if any of the four
coordinate components is absent the result is 0.0 (not an error); the
function is total (the source's catch-all `except` is modelled by the total
real-valued core), so it never raises for any input. -/
theorem haversine_absent_eq_zero (lat1 lon1 lat2 lon2 : Option ℝ)
    (h : lat1 = none ∨ lon1 = none ∨ lat2 = none ∨ lon2 = none) :
    haversine lat1 lon1 lat2 lon2 = 0 := by
  cases lat1 <;> cases lon1 <;> cases lat2 <;> cases lon2 <;>
    simp_all [haversine]

/-- Witness for C6 at a concrete input with an absent first latitude. -/
theorem haversine_absent_eq_zero_witness :
    haversine none (some 1) (some 2) (some 3) = 0 :=
  haversine_absent_eq_zero none (some 1) (some 2) (some 3) (Or.inl rfl)

/-- C8: distance of a coordinate pair to itself is 0, and distance is
symmetric (both on present pairs and on the `None`-guarded inputs). -/
theorem haversine_self_and_symm :
    (∀ lat lon : ℝ, haversine (some lat) (some lon) (some lat) (some lon) = 0) ∧
    (∀ lat1 lon1 lat2 lon2 : Option ℝ,
      haversine lat1 lon1 lat2 lon2 = haversine lat2 lon2 lat1 lon1) := by
  constructor
  · intro lat lon
    simpa [haversine] using havCore_self lat lon
  · intro lat1 lon1 lat2 lon2
    cases lat1 <;> cases lon1 <;> cases lat2 <;> cases lon2 <;>
      simp [haversine, havCore_comm]

/-- C5: `_calculate_way_metrics` returns a non-zero area only when the
reference list is closed (first and last raw references equal as strings and
at least 3 references) and at least 3 coordinates resolve; in every other
case — in particular for every open way, whatever shape its coordinates
form — the returned area is 0.  Stated contrapositively: whenever the guard
fails, the area component is 0. -/
theorem wayMetrics_area_zero_of_not_closed (refs : List RefVal)
    (cache : CoordCache)
    (h : ¬(isClosed refs = true ∧ 3 ≤ (resolveCoords refs cache).length)) :
    (wayMetrics refs cache).2.1 = 0 := by
  unfold wayMetrics
  by_cases hlen : (resolveCoords refs cache).length < 2
  · simp [hlen]
  · simp only [hlen, if_false]
    simp [h]

/-- Witness for C5: a two-reference (hence open) way has area 0. -/
theorem wayMetrics_area_zero_witness :
    ¬(isClosed [RefVal.rint 1, RefVal.rint 2] = true ∧
      3 ≤ (resolveCoords [RefVal.rint 1, RefVal.rint 2]
            (fun _ => none)).length) ∧
    (wayMetrics [RefVal.rint 1, RefVal.rint 2] (fun _ => none)).2.1 = 0 := by
  constructor
  · decide
  · exact wayMetrics_area_zero_of_not_closed _ _ (by decide)

/-- C9: the row-extraction step leaves every index built during
preprocessing unchanged — the state coming out of `extractRowS` is the state
that went in.  Every access in the source's `extract_row` is a non-mutating
`dict.get` / `Counter.get` / `defaultdict.get` (the latter does not insert a
default entry for an unseen author id), so the embedding is a pure reader of
the state. -/
theorem extractRow_preserves_state (st : XState) (curr : Rec) :
    (extractRowS st curr).2 = st := rfl

lemma sanitizeValue_isNum (ov : Option Value) :
    (sanitizeValue ov).isNum = true := by
  match ov with
  | none => rfl
  | some (.vint n) => rfl
  | some (.vfloat x) => rfl
  | some (.vstr s) =>
      simp only [sanitizeValue, toNumeric]
      cases parseNumQ s <;> rfl
  | some .vnone => rfl
  | some .vnan => rfl
  | some .vinf => rfl
  | some .vneginf => rfl

lemma rowLookup_map_self (l : List String) (f : String → Value) (c : String)
    (hc : c ∈ l) :
    rowLookup (l.map fun k => (k, f k)) c = some (f c) := by
  induction l with
  | nil => cases hc
  | cons a t ih =>
      simp only [List.map_cons, rowLookup]
      by_cases h : a = c
      · subst h; simp
      · rw [if_neg h]
        exact ih (by
          rcases List.mem_cons.mp hc with h' | h'
          · exact absurd h'.symm h
          · exact h')

/-- C1: after sanitization every emitted row carries exactly the fixed column
set, every cell is a (finite) number, a column absent from the row is
synthesized with value 0, a non-coercible string becomes 0, and a positive or
negative infinity becomes 0 — so no emitted value is null, NaN, or
infinite. -/
theorem sanitize_sound (r : Row) (c : String) (hc : c ∈ cols) :
    (sanitizeRow r).map Prod.fst = cols ∧
    (∀ p ∈ sanitizeRow r, p.2.isNum = true) ∧
    (rowLookup r c = none →
      rowLookup (sanitizeRow r) c = some (Value.vint 0)) ∧
    (∀ s, rowLookup r c = some (Value.vstr s) → parseNumQ s = none →
      rowLookup (sanitizeRow r) c = some (Value.vint 0)) ∧
    ((rowLookup r c = some Value.vinf ∨ rowLookup r c = some Value.vneginf) →
      rowLookup (sanitizeRow r) c = some (Value.vint 0)) := by
  have hlook : rowLookup (sanitizeRow r) c =
      some (sanitizeValue (rowLookup r c)) :=
    rowLookup_map_self cols (fun k => sanitizeValue (rowLookup r k)) c hc
  refine ⟨?_, ?_, ?_, ?_, ?_⟩
  · simp [sanitizeRow, List.map_map, Function.comp_def]
  · intro p hp
    rcases List.mem_map.mp hp with ⟨k, _, rfl⟩
    exact sanitizeValue_isNum _
  · intro hnone
    rw [hlook, hnone]
    rfl
  · intro s hs hparse
    rw [hlook, hs]
    simp [sanitizeValue, toNumeric, hparse, fillna0, replaceInf0]
  · intro hinf
    rcases hinf with h | h <;> rw [hlook, h] <;> rfl

/-- A concrete accumulated row for the C1 witness: a non-numeric string in
one column, an infinite ratio in another, and (among others) the `is_delete`
column missing entirely. -/
def rowW : Row :=
  [("tag_count", Value.vstr "abc"), ("length_change_ratio", Value.vinf)]

/-- Witness for C1: on `rowW`, the offending columns each come out as 0. -/
theorem sanitize_sound_witness :
    ("tag_count" ∈ cols) ∧
    rowLookup (sanitizeRow rowW) "tag_count" = some (Value.vint 0) ∧
    rowLookup (sanitizeRow rowW) "is_delete" = some (Value.vint 0) ∧
    rowLookup (sanitizeRow rowW) "length_change_ratio" = some (Value.vint 0) := by
  refine ⟨by decide, ?_, ?_, ?_⟩
  · exact (sanitize_sound rowW "tag_count" (by decide)).2.2.2.1 "abc" rfl
      (by decide)
  · exact (sanitize_sound rowW "is_delete" (by decide)).2.2.1 rfl
  · exact (sanitize_sound rowW "length_change_ratio" (by decide)).2.2.2.2
      (Or.inl rfl)

/-- A prior-stream node record whose geometry carries a longitude but no
latitude. -/
noncomputable def c2Node : Rec :=
  { Rec.empty with
    obj_type := some "node"
    obj_id := some (.rint 7)
    geom := some ⟨none, some 5⟩ }

/-- C2 counterexample: contrary to the claim, preprocessing the stream
containing `c2Node` (a node whose `geom` lacks a latitude) DOES insert a
coordinate-index entry for node 7 — the missing component is stored as
`None`, it is not treated as "contributes no entry at all". -/
theorem coords_missing_component_inserted :
    (preprocess [c2Node] []).coordsPrev (some (RefVal.rint 7)) =
      some (none, some 5) := by
  simp [preprocess, prevStep, currStep, XState.empty, dictInsert, c2Node,
    Rec.empty, geomTruthy]

/-- C2 amended: a node record with a present, nonempty geometry always
contributes a coordinate-index entry holding the raw `(lat, lon)` pair (a
missing component is stored as `None`, never as zero); and an entry with a
missing component never resolves to a coordinate — the resolution loop of
`_calculate_way_metrics` drops it, so it behaves as absent at every use
site. -/
theorem coords_missing_component_never_resolves
    (st : XState) (d : Rec) (g : Geom)
    (hg : d.geom = some g) (ht : d.obj_type = some "node")
    (htr : geomTruthy g = true)
    (refs : List RefVal) (cache : CoordCache)
    (hc : ∀ k la lo, cache k = some (la, lo) → la = none ∨ lo = none) :
    (prevStep st d).coordsPrev d.obj_id = some (g.lat, g.lon) ∧
    resolveCoords refs cache = [] := by
  constructor
  · simp [prevStep, hg, ht, htr, dictInsert]
  · induction refs with
    | nil => rfl
    | cons a t ih =>
        simp only [resolveCoords, List.filterMap_cons] at ih ⊢
        rcases hk : cache (some (intCoerce a)) with _ | ⟨la, lo⟩
        · simpa [hk] using ih
        · rcases hc _ _ _ hk with h | h <;> subst h
          · simpa [hk] using ih
          · cases la <;> simpa [hk] using ih

/-- A coordinate cache holding only an entry with a missing latitude, for the
C2 witness. -/
noncomputable def c2Cache : CoordCache :=
  fun k => if k = some (RefVal.rint 7) then some (none, some 5) else none

/-- Witness for C2's amended theorem at concrete inputs. -/
theorem coords_missing_component_never_resolves_witness :
    c2Node.geom = some ⟨none, some 5⟩ ∧
    ((prevStep XState.empty c2Node).coordsPrev c2Node.obj_id =
        some ((none : Option ℝ), some 5) ∧
      resolveCoords [RefVal.rint 7] c2Cache = []) := by
  refine ⟨rfl, ?_⟩
  have h := coords_missing_component_never_resolves XState.empty c2Node
    ⟨none, some 5⟩ rfl rfl rfl [RefVal.rint 7] c2Cache
    (by
      intro k la lo hk
      by_cases hk7 : k = some (RefVal.rint 7)
      · rw [c2Cache, if_pos hk7] at hk
        cases hk
        exact Or.inl rfl
      · rw [c2Cache, if_neg hk7] at hk
        cases hk)
  exact h

/-- C7: for a record with version 1 and action `create` no predecessor is
looked up, so the created time equals the last-modified time, every current
tag key counts as added, and no key counts as removed. -/
theorem create_baseline (st : XState) (curr : Rec)
    (hv : versionOf curr = 1) (ha : actionOf curr = "create") :
    (extractRow st curr).created_time = (extractRow st curr).last_modified_time ∧
    (extractRow st curr).tag_add_count = (extractRow st curr).tag_count ∧
    (extractRow st curr).tag_remove_count = 0 := by
  have hp : prevLookup st curr = none := by
    simp [prevLookup, ha]
  simp [extractRow, hp, hv, keySet]

/-- A concrete version-1 create record for the C7 witness. -/
def c7Rec : Rec :=
  { Rec.empty with
    obj_type := some "node"
    obj_id := some (.rint 4)
    version := some 1
    action := some "create"
    tags := some [("name", "x"), ("amenity", "bench")] }

/-- Witness for C7 at `c7Rec`. -/
theorem create_baseline_witness :
    versionOf c7Rec = 1 ∧ actionOf c7Rec = "create" ∧
    ((extractRow XState.empty c7Rec).created_time =
        (extractRow XState.empty c7Rec).last_modified_time ∧
      (extractRow XState.empty c7Rec).tag_add_count =
        (extractRow XState.empty c7Rec).tag_count ∧
      (extractRow XState.empty c7Rec).tag_remove_count = 0) :=
  ⟨by decide, by decide,
    create_baseline XState.empty c7Rec (by decide) (by decide)⟩

/-- Predecessor record for the C10 scenario: version 1 of node 3, carrying a
parsable timestamp. -/
def c10Prev : Rec :=
  { Rec.empty with
    obj_type := some "node"
    obj_id := some (.rint 3)
    version := some 1
    timestamp := some "2020-01-01T00:00:00Z" }

/-- Current record for the C10 scenario: version 2 of node 3, with an absent
timestamp (parsed to 0). -/
def c10Curr : Rec :=
  { Rec.empty with
    obj_type := some "node"
    obj_id := some (.rint 3)
    version := some 2
    action := some "modify" }

/-- The preprocessed state of the C10 scenario. -/
def c10State : XState := preprocess [c10Prev] [c10Curr]

/-- C10: there is an input on which the emitted `time_gap_prev` is strictly
negative — a current record with an absent (hence 0) timestamp whose
predecessor's timestamp parses to a positive value yields
`0 - prev_ts < 0`, and sanitization passes the negative integer through
unchanged, so output values are not guaranteed non-negative. -/
theorem negative_time_gap_scenario :
    (extractRow c10State c10Curr).time_gap_prev = -1577836800 ∧
    (extractRow c10State c10Curr).time_gap_prev < 0 ∧
    rowLookup (sanitizeRow (toRow (extractRow c10State c10Curr)))
        "time_gap_prev" = some (Value.vint (-1577836800)) := by
  have hprev : prevLookup c10State c10Curr = some c10Prev := rfl
  have hts : parseTs c10Prev.timestamp = 1577836800 := by decide
  have hts0 : parseTs c10Curr.timestamp = 0 := rfl
  have hf : (extractRow c10State c10Curr).time_gap_prev = -1577836800 := by
    simp [extractRow, hprev, hts, hts0]
  have hrow : rowLookup (toRow (extractRow c10State c10Curr)) "time_gap_prev" =
      some (Value.vint ((extractRow c10State c10Curr).time_gap_prev)) := by
    simp [toRow, rowLookup]
  refine ⟨hf, by rw [hf]; norm_num, ?_⟩
  have hs := rowLookup_map_self cols
    (fun k => sanitizeValue (rowLookup (toRow (extractRow c10State c10Curr)) k))
    "time_gap_prev" (by decide)
  rw [sanitizeRow, hs]
  simp only [hrow, hf]
  rfl

lemma wayMetrics_of_short (refs : List RefVal) (cache : CoordCache)
    (h : (resolveCoords refs cache).length < 2) :
    wayMetrics refs cache = (0, 0, (0, 0)) := by
  simp [wayMetrics, h]

/-- Prior way (version 1) for the C3 counterexample: two resolvable nodes. -/
noncomputable def c3PrevWay : Rec :=
  { Rec.empty with
    obj_type := some "way"
    obj_id := some (.rint 1)
    version := some 1
    refs := some ⟨some [.rint 10, .rint 11], none⟩ }

/-- Prior-stream node 10 at the origin. -/
noncomputable def c3Node10 : Rec :=
  { Rec.empty with
    obj_type := some "node"
    obj_id := some (.rint 10)
    geom := some ⟨some 0, some 0⟩ }

/-- Prior-stream node 11, 0.001 degrees of longitude away. -/
noncomputable def c3Node11 : Rec :=
  { Rec.empty with
    obj_type := some "node"
    obj_id := some (.rint 11)
    geom := some ⟨some 0, some (1 / 1000)⟩ }

/-- Current way (version 2) for the C3 counterexample: its single reference
resolves to no coordinate at all. -/
noncomputable def c3Curr : Rec :=
  { Rec.empty with
    obj_type := some "way"
    obj_id := some (.rint 1)
    version := some 2
    action := some "modify"
    refs := some ⟨some [.rint 99], none⟩ }

/-- The preprocessed state of the C3 counterexample. -/
noncomputable def c3State : XState :=
  preprocess [c3PrevWay, c3Node10, c3Node11] [c3Curr]

/-- C3 counterexample: `c3Curr` is a way record whose reference list resolves
to fewer than 2 coordinates, yet its emitted `length_change_ratio` is not 0
(it is strictly negative: the predecessor resolves to a positive-length
polyline, so the ratio is `-p_len / max(p_len, 1e-6)`). -/
theorem short_way_nonzero_ratio :
    (resolveCoords (refsListOf c3Curr) c3State.coordsCurr).length < 2 ∧
    ¬((extractRow c3State c3Curr).length_change_ratio = 0 ∧
      (extractRow c3State c3Curr).area_change_ratio = 0 ∧
      (extractRow c3State c3Curr).centroid_shift = 0) := by
  constructor
  · show (0 : ℕ) < 2
    norm_num
  · rintro ⟨h1, -, -⟩
    have hlr : (extractRow c3State c3Curr).length_change_ratio =
        (0 - (havCore 0 0 0 (1 / 1000) + 0)) /
          max (havCore 0 0 0 (1 / 1000) + 0) (1 / 1000000) := rfl
    have hL := havCore001_pos
    have hden : (0 : ℝ) < max (havCore 0 0 0 (1 / 1000) + 0) (1 / 1000000) :=
      lt_of_lt_of_le (by norm_num) (le_max_right _ _)
    have hneg : (extractRow c3State c3Curr).length_change_ratio < 0 := by
      rw [hlr]
      exact div_neg_of_neg_of_pos (by linarith) hden
    rw [h1] at hneg
    exact lt_irrefl 0 hneg

/-- C3 amended: a way record whose reference list resolves to fewer than 2
coordinates has `length_change_ratio == 0`, `area_change_ratio == 0` and
`centroid_shift == 0` provided its predecessor (when one is looked up) also
resolves to fewer than 2 coordinates; with a resolvable predecessor the
ratios are taken against the predecessor's metrics and need not be 0. -/
theorem short_way_zero_ratios (st : XState) (curr : Rec)
    (hty : curr.obj_type = some "way")
    (hc : (resolveCoords (refsListOf curr) st.coordsCurr).length < 2)
    (hp : ∀ p, prevLookup st curr = some p →
      (resolveCoords (refsListOf p) st.coordsPrevFallback).length < 2) :
    (extractRow st curr).length_change_ratio = 0 ∧
    (extractRow st curr).area_change_ratio = 0 ∧
    (extractRow st curr).centroid_shift = 0 := by
  have hcm := wayMetrics_of_short (refsListOf curr) st.coordsCurr hc
  rcases hpe : prevLookup st curr with _ | p
  · simp [extractRow, hty, hpe]
  · have hpm := wayMetrics_of_short (refsListOf p) st.coordsPrevFallback
      (hp p hpe)
    simp [extractRow, hty, hpe, hcm, hpm]

/-- A current way record for the C3 witness: no predecessor (create action)
and an unresolvable reference. -/
def c3WRec : Rec :=
  { Rec.empty with
    obj_type := some "way"
    obj_id := some (.rint 2)
    action := some "create"
    refs := some ⟨some [.rint 99], none⟩ }

/-- Witness for C3's amended theorem at concrete inputs. -/
theorem short_way_zero_ratios_witness :
    c3WRec.obj_type = some "way" ∧
    (resolveCoords (refsListOf c3WRec) XState.empty.coordsCurr).length < 2 ∧
    ((extractRow XState.empty c3WRec).length_change_ratio = 0 ∧
      (extractRow XState.empty c3WRec).area_change_ratio = 0 ∧
      (extractRow XState.empty c3WRec).centroid_shift = 0) := by
  refine ⟨rfl, by norm_num [resolveCoords, refsListOf, c3WRec, Rec.empty,
    XState.empty], ?_⟩
  exact short_way_zero_ratios XState.empty c3WRec rfl
    (by norm_num [resolveCoords, refsListOf, c3WRec, Rec.empty, XState.empty])
    (fun p hp => Option.noConfusion hp)

/-- Prior way (version 1) for the C4 end-to-end scenario. -/
noncomputable def c4PrevWay : Rec :=
  { Rec.empty with
    obj_type := some "way"
    obj_id := some (.rint 1)
    version := some 1
    refs := some ⟨some [.rstr "10"], none⟩ }

/-- Prior-stream node 10 at the origin. -/
noncomputable def c4Node10p : Rec :=
  { Rec.empty with
    obj_type := some "node"
    obj_id := some (.rint 10)
    geom := some ⟨some 0, some 0⟩ }

/-- Current way (version 2) of the C4 scenario,
`{obj_type: way, obj_id: 1, version: 2, action: modify, changeset_id: 5,
node_refs: ["10", "11"]}`. -/
noncomputable def c4Curr : Rec :=
  { Rec.empty with
    obj_type := some "way"
    obj_id := some (.rint 1)
    version := some 2
    action := some "modify"
    changeset_id := some 5
    refs := some ⟨some [.rstr "10", .rstr "11"], none⟩ }

/-- Current-stream node 10 at the origin. -/
noncomputable def c4Node10c : Rec :=
  { Rec.empty with
    obj_type := some "node"
    obj_id := some (.rint 10)
    geom := some ⟨some 0, some 0⟩ }

/-- Current-stream node 11 at longitude 0.001. -/
noncomputable def c4Node11c : Rec :=
  { Rec.empty with
    obj_type := some "node"
    obj_id := some (.rint 11)
    geom := some ⟨some 0, some (1 / 1000)⟩ }

/-- The preprocessed state of the C4 scenario. -/
noncomputable def c4State : XState :=
  preprocess [c4PrevWay, c4Node10p] [c4Curr, c4Node10c, c4Node11c]

/-- C4: in the end-to-end scenario the emitted row has
`node_count_change == 1`, and `length_change_ratio` is the large but (in real
arithmetic) finite positive value `haversine(0,0,0,0.001) / 1e-6`
(≈ 111.3 / 1e-6); sanitization preserves this value unchanged rather than
replacing it with 0. -/
theorem end_to_end_ratio_preserved :
    (extractRow c4State c4Curr).node_count_change = 1 ∧
    (extractRow c4State c4Curr).length_change_ratio =
      1000000 * havCore 0 0 0 (1 / 1000) ∧
    0 < (extractRow c4State c4Curr).length_change_ratio ∧
    rowLookup (sanitizeRow (toRow (extractRow c4State c4Curr)))
        "length_change_ratio" =
      some (Value.vfloat ((extractRow c4State c4Curr).length_change_ratio)) := by
  have hlr_raw : (extractRow c4State c4Curr).length_change_ratio =
      (havCore 0 0 0 (1 / 1000) + 0 - 0) / max 0 (1 / 1000000) := rfl
  have hlr : (extractRow c4State c4Curr).length_change_ratio =
      1000000 * havCore 0 0 0 (1 / 1000) := by
    rw [hlr_raw, max_eq_right (by norm_num : (0 : ℝ) ≤ 1 / 1000000),
      add_zero, sub_zero, div_eq_mul_inv]
    norm_num
    ring
  refine ⟨by decide, hlr, ?_, ?_⟩
  · rw [hlr]
    exact mul_pos (by norm_num) havCore001_pos
  · have hrow : rowLookup (toRow (extractRow c4State c4Curr))
        "length_change_ratio" =
        some (Value.vfloat ((extractRow c4State c4Curr).length_change_ratio)) := by
      simp [toRow, rowLookup]
    have hs := rowLookup_map_self cols
      (fun k => sanitizeValue (rowLookup (toRow (extractRow c4State c4Curr)) k))
      "length_change_ratio" (by decide)
    rw [sanitizeRow, hs]
    simp only [hrow]
    rfl

end OSM
